import Mathlib

/-!
Verification of the RenderTimeInstancing interface headers
(`RenderTimeInstancing.h`, v1-v3, and `tyParticleObjectExt_v2.h`).

The headers define an in-process protocol between a scene object (the
producer) and a renderer (the consumer).  Scalar values are modelled over
`ℚ` (the claims under study involve no floating-point rounding: they only
move stored values or constants around).  Machine integers that can carry
the sentinel `-1` are modelled as `Int`; sizes and indices as `Nat`.

Concrete code embedded directly from the source:
  * the typed per-instance readers `GetCustomFloat` / `GetCustomVector` /
    `GetCustomColor` / `GetCustomTM` of `RenderInstanceTarget` (v3 header),
    which fall back to documented defaults when the raw lookup
    `GetCustomData` returns `nullptr`;
  * the `DataFlags` bit constants;
  * the `begin()`/`end()` index iterators of `RenderTimeInstancing` and
    `RenderInstanceSource`;
  * the `tyVector` growable-array container of `tyParticleObjectExt_v2.h`.

Methods that the headers declare pure virtual (the producer side of the
protocol: `UpdateInstanceData`, `GetChannelID`, `GetTMs`, ...) have no
implementation in the repository; where a claim is about their contract the
producer is modelled from the spec, with each such definition marked
`Modelled from the spec:` in its doc comment.
-/

namespace RTI

/-- A Channel ID, `typedef int ChannelID` in the v3 header.  Opaque integer
token; `-1` is the not-found sentinel of `GetChannelID`. -/
abbrev ChannelID := Int

/-- Channel type enum `ChannelInfo::TypeID` of the v3 header. -/
inductive TypeID where
  | typeCustom
  | typeInt
  | typeFloat
  | typeVector
  | typeColor
  | typeTM
deriving DecidableEq, Repr

/-- Max SDK `Point3`, modelled with rational coordinates. -/
structure Point3 where
  x : ℚ
  y : ℚ
  z : ℚ
deriving DecidableEq, Repr

/-- `Point3(0.0f, 0.0f, 0.0f)`, the origin. -/
def Point3.origin : Point3 := ⟨0, 0, 0⟩

/-- Max SDK `Color`, modelled with rational components. -/
structure Color where
  r : ℚ
  g : ℚ
  b : ℚ
deriving DecidableEq, Repr

/-- `Color(0.0f, 0.0f, 0.0f)`, black. -/
def Color.black : Color := ⟨0, 0, 0⟩

/-- Max SDK `Matrix3`: a 4x3 affine transform (three rotation rows and a
translation row). -/
structure Matrix3 where
  row1 : Point3
  row2 : Point3
  row3 : Point3
  row4 : Point3
deriving DecidableEq, Repr

/-- The identity transform. -/
def Matrix3.identity : Matrix3 :=
  ⟨⟨1, 0, 0⟩, ⟨0, 1, 0⟩, ⟨0, 0, 1⟩, ⟨0, 0, 0⟩⟩

/-- Max SDK `Matrix3()` default constructor.  Since the 3ds Max 2022 SDK
(the era of these headers) the default constructor initializes the matrix
to the identity. -/
def Matrix3.defaultCtor : Matrix3 := Matrix3.identity

/-- Max SDK `AngAxis` (axis plus angle), modelled over `ℚ`. -/
structure AngAxis where
  axis : Point3
  angle : ℚ
deriving DecidableEq, Repr

/-! ## Per-instance custom data access (v3 header, lines 294-319)

`GetCustomData(channel)` returns a raw `void*`, `nullptr` when the ID is
invalid.  The typed readers dereference it after a reinterpreting cast.  A
non-null block is modelled as a `RawBlock` recording what reading the same
memory as each of the four types yields; a null pointer is `Option.none`. -/

/-- The four reinterpretations of one raw custom-data block
(`*(float*)p`, `*(Point3*)p`, `*(Color*)p`, `*(Matrix3*)p`). -/
structure RawBlock where
  asFloat : ℚ
  asVector : Point3
  asColor : Color
  asTM : Matrix3

/-- A `RenderInstanceTarget` as far as custom-data access is concerned:
its virtual raw lookup `GetCustomData`, returning `none` for `nullptr`. -/
structure CustomDataTarget where
  getCustomData : ChannelID → Option RawBlock

/-- `RenderInstanceTarget::GetCustomFloat` (v3 header):
`auto p = GetCustomData(channel); return p ? *(float*)p : 0.0f;` -/
def CustomDataTarget.getCustomFloat (t : CustomDataTarget) (channel : ChannelID) : ℚ :=
  match t.getCustomData channel with
  | some p => p.asFloat
  | none => 0

/-- `RenderInstanceTarget::GetCustomVector` (v3 header):
`auto p = GetCustomData(channel); return p ? *(Point3*)p : Point3(0,0,0);` -/
def CustomDataTarget.getCustomVector (t : CustomDataTarget) (channel : ChannelID) : Point3 :=
  match t.getCustomData channel with
  | some p => p.asVector
  | none => Point3.origin

/-- `RenderInstanceTarget::GetCustomColor` (v3 header):
`auto p = GetCustomData(channel); return p ? *(Color*)p : Color(0,0,0);` -/
def CustomDataTarget.getCustomColor (t : CustomDataTarget) (channel : ChannelID) : Color :=
  match t.getCustomData channel with
  | some p => p.asColor
  | none => Color.black

/-- `RenderInstanceTarget::GetCustomTM` (v3 header):
`auto p = GetCustomData(channel); return p ? *(Matrix3*)p : Matrix3();` -/
def CustomDataTarget.getCustomTM (t : CustomDataTarget) (channel : ChannelID) : Matrix3 :=
  match t.getCustomData channel with
  | some p => p.asTM
  | none => Matrix3.defaultCtor

/-- A target with no custom data at all: every raw lookup fails.  Used as a
concrete instance; in particular the not-found token `-1` from a failed
`GetChannelID` resolve always lands here. -/
def CustomDataTarget.emptyTarget : CustomDataTarget :=
  ⟨fun _ => none⟩

/-! ## DataFlags (v3 header, lines 272-281)

`enum DataFlags : signed int { df_none = 0, df_mesh = 1 << 0,
df_inode = 1 << 1, df_pluginMustDelete = 1 << 31 }`.  Flags values are
modelled as the bit patterns of the 32-bit words, as `Nat`. -/

def df_none : Nat := 0
def df_mesh : Nat := 1 <<< 0
def df_inode : Nat := 1 <<< 1
def df_pluginMustDelete : Nat := 1 <<< 31

/-- The two possible concrete types behind `RenderInstanceSource::GetData`:
`Mesh*` or `INode*`.  A source's payload has exactly one of them. -/
inductive PayloadKind where
  | mesh
  | inode
deriving DecidableEq, Repr

/-- Modelled from the spec: the flags value a conforming producer's
`RenderInstanceSource::GetFlags` returns (no implementation is in the
repository).  Per the header documentation, the value has exactly the one
type bit of the payload's concrete class set, bitwise-or the independent
`df_pluginMustDelete` ownership bit when the consumer must delete the
payload. -/
def dataFlagsOf (k : PayloadKind) (mustDel : Bool) : Nat :=
  (match k with
   | PayloadKind.mesh => df_mesh
   | PayloadKind.inode => df_inode) |||
  (if mustDel then df_pluginMustDelete else 0)

/-! ## Iterators (v3 header, lines 205-222 and 516-534)

Both `RenderTimeInstancing` and `RenderInstanceSource` expose the same
index-based iterator: `begin()` is `Iterator(this)` with `m_i = 0`,
`end()` is `Iterator(this, count)`, `operator++` increments `m_i`,
`operator!=` compares `m_i`, `operator*` returns `item(m_i)`.  Both are
instances of one indexed-container shape. -/

/-- An indexed container: `GetNumInstanceSources`/`GetRenderInstanceSource`
for the instancer, `GetNumInstanceTargets`/`GetRenderInstanceTarget` for a
source. -/
structure IndexedContainer (α : Type) where
  count : Nat
  item : Nat → α

/-- Iterator state: the member `m_i` (the container pointer `m_item` is
fixed throughout one loop). -/
structure Iter where
  i : Nat
deriving DecidableEq, Repr

/-- `begin()`: `Iterator(this)`, which sets `m_i = 0`. -/
def IndexedContainer.beginIter (_ : IndexedContainer α) : Iter := ⟨0⟩

/-- `end()`: `Iterator(this, count)`. -/
def IndexedContainer.endIter (c : IndexedContainer α) : Iter := ⟨c.count⟩

/-- `operator++`: `m_i++`. -/
def Iter.next (it : Iter) : Iter := ⟨it.i + 1⟩

/-- `operator!=`: `m_i != iterator.m_i`. -/
def Iter.ne (a b : Iter) : Bool := a.i != b.i

/-- The C++ range-for loop body collection:
`for (it = begin; it != end; ++it) visit(*it)`, with an explicit fuel
bound (the loop from index `i` with `endIdx - i` steps left needs that
much fuel). -/
def IndexedContainer.forEachAux (c : IndexedContainer α) (endIdx : Nat) :
    Nat → Nat → List α
  | _, 0 => []
  | i, fuel + 1 =>
    if (Iter.ne ⟨i⟩ ⟨endIdx⟩) = true then c.item i :: c.forEachAux endIdx (i + 1) fuel
    else []

/-- The list of elements a `for (auto x : y)` loop over the container
visits, in order.  Fuel `count + 1` covers the `count` loop iterations
plus the final failing test. -/
def IndexedContainer.forEachVisited (c : IndexedContainer α) : List α :=
  c.forEachAux c.endIter.i c.beginIter.i (c.count + 1)

end RTI

namespace RTI

/-! ## tyVector (`tyParticleObjectExt_v2.h`, lines 141-236)

The lightweight dynamic array of the tyFlow header.  The heap buffer
`_array` (of length `_alloc`) is modelled as a `List α` whose length is
the capacity; `_size` is a separate field.  `new T[n]` default-initializes
its elements, so buffer slots beyond the copied prefix hold `default`;
reading `_array[h]` is modelled as `List.getD` with `default` for the
out-of-bounds junk an invariant-breaking state would read. -/

structure tyVector (α : Type) [Inhabited α] where
  arr : List α
  sz : Nat

variable {α : Type} [Inhabited α]

/-- The default constructor: `_array(NULL), _size(0), _alloc(0)`. -/
def tyVector.emptyVec (α : Type) [Inhabited α] : tyVector α := ⟨[], 0⟩

/-- `size()`: returns `_size`. -/
def tyVector.size (v : tyVector α) : Nat := v.sz

/-- `capacity()`: returns `_alloc`. -/
def tyVector.capacity (v : tyVector α) : Nat := v.arr.length

/-- `operator[]`: reads `_array[i]`. -/
def tyVector.get (v : tyVector α) (i : Nat) : α := v.arr.getD i default

/-- `clear()`: `delete[] _array; _array = NULL; _size = 0, _alloc = 0;`. -/
def tyVector.clear (_ : tyVector α) : tyVector α := ⟨[], 0⟩

/-- `reserve(s)`: if `s > _alloc`, set `_alloc = s`, allocate
`new T[_alloc]` (default-initialized), copy the first `_size` elements of
the old buffer over, and swap the buffers; otherwise do nothing. -/
def tyVector.reserve (v : tyVector α) (s : Nat) : tyVector α :=
  if v.arr.length < s then
    ⟨(List.range s).map (fun h => if h < v.sz then v.arr.getD h default else default),
     v.sz⟩
  else v

/-- The growth target `s < 4 ? s : ceil(s * 1.5)` used by `resize`;
`ceil(1.5 * s)` equals `(3 * s + 1) / 2` in exact arithmetic. -/
def tyVector.growTarget (s : Nat) : Nat := if s < 4 then s else (3 * s + 1) / 2

/-- `resize(s)`: if `_size != s` then: `s == 0` clears; `s < _alloc`
just sets `_size = s`; otherwise `reserve(s < 4 ? s : ceil(s * 1.5))`
and set `_size = s`. -/
def tyVector.resize (v : tyVector α) (s : Nat) : tyVector α :=
  if v.sz = s then v
  else if s = 0 then v.clear
  else if s < v.arr.length then ⟨v.arr, s⟩
  else ⟨(v.reserve (tyVector.growTarget s)).arr, s⟩

/-- `push_back(v)`: `resize(_size + 1); _array[_size - 1] = v;`. -/
def tyVector.push_back (v : tyVector α) (x : α) : tyVector α :=
  ⟨(v.resize (v.sz + 1)).arr.set ((v.resize (v.sz + 1)).sz - 1) x,
   (v.resize (v.sz + 1)).sz⟩

/-- The class invariant `_size <= _alloc` (the elements `operator[]` may
legally read all live inside the allocation). -/
def tyVector.WF (v : tyVector α) : Prop := v.sz ≤ v.arr.length

end RTI

namespace RTI

/-! ## The producer side: motion blur negotiation and the instance tree

`UpdateInstanceData`, `ReleaseInstanceData`, `GetTMs`, `GetTM`,
`GetVelocity` and `GetSpin` are pure virtual in the headers: the producer
implementation (tyFlow or another instancing object) is not part of the
repository.  The definitions below are modelled from the spec, using the
negotiation semantics documented on `MotionBlurInfo::numberOfTMs` (v2
header, lines 781-807) and the sample layout documented on `GetTMs` (v3
header, lines 386-399). -/

/-- Time, the Max SDK `TimeValue`/shutter times, modelled over `ℚ`. -/
abbrev Time := ℚ

/-- A Max SDK `Interval`: `NEVER` (empty), `FOREVER` (unbounded), or a
closed span of time. -/
inductive Interval where
  | NEVER
  | FOREVER
  | ivl (istart iend : Time)
deriving DecidableEq

/-- `MBFlags` of the v2 header: `transforms = 1 << 0`,
`velocities = 1 << 1`, `tm_preferred = 1 << 2`, `vel_preferred = 1 << 3`. -/
def mb_transforms : Nat := 1 <<< 0
def mb_velocities : Nat := 1 <<< 1
def mb_tm_preferred : Nat := 1 <<< 2
def mb_vel_preferred : Nat := 1 <<< 3

/-- `MotionBlurInfo` of the v2 header: representation flags, the shutter
interval, and `numberOfTMs` (the requested/negotiated sample count:
`-1` variable, `0` none, `1` single transform plus velocity/spin, `N ≥ 2`
exactly `N` transform samples). -/
structure MotionBlurInfo where
  flags : Nat
  shutterInterval : Interval
  numberOfTMs : Int
deriving DecidableEq

/-- The `MotionBlurInfo` constructor defaults:
`MotionBlurInfo(Interval shutter = NEVER, MBFlags f = tm_preferred, int tms = -1)`. -/
def MotionBlurInfo.mkDefault : MotionBlurInfo :=
  ⟨mb_tm_preferred, Interval.NEVER, -1⟩

/-- Modelled from the spec: one instance (a Target) as the producer tracks
it internally, with its motion as a transform-valued trajectory over time,
its velocity/spin, and the number of transform samples the producer would
natively deliver when the consumer lets the count vary. -/
structure ModelTarget where
  birthID : Int
  instanceID : Int
  trajectory : Time → Matrix3
  velocity : Point3
  spin : AngAxis
  naturalSamples : Nat

/-- Modelled from the spec: one Source (a distinct payload plus the
targets instancing it). -/
structure ModelSource where
  payloadKind : PayloadKind
  mustDelete : Bool
  velocityMapChannel : Int
  targets : List ModelTarget

/-- Modelled from the spec: the producer's scene — its sources and
whether its instances are moving/changing at all over the evaluation
window. -/
structure ModelScene where
  sources : List ModelSource
  moving : Bool

/-- Modelled from the spec: the producer (the object implementing
`RenderTimeInstancing`): its scene and whether it can honor an exact
multi-sample transform request, or instead only tracks a single transform
plus velocity/spin. -/
structure ModelProducer where
  scene : ModelScene
  supportsMultiTM : Bool

/-- Modelled from the spec: the `numberOfTMs` response computed by the
producer during `UpdateInstanceData` from the consumer's request.  Static
instances respond `0` (not moving); a request of `0` (no motion blur) or
`1` yields a single transform; an exact request `N ≥ 2` is honored only
when the producer supports multi-sample transforms and is otherwise
overridden to `1`; a variable request (`-1`) answers `-1` when
multi-sample is supported and `1` otherwise. -/
def negotiateTMs (supportsMulti moving : Bool) (request : Int) : Int :=
  if moving = false then 0
  else if request = 0 then 1
  else if request = 1 then 1
  else if 2 ≤ request then (if supportsMulti = true then request else 1)
  else if supportsMulti = true then -1 else 1

/-- Modelled from the spec: the time of sample `i` out of `k` samples
spread evenly over the shutter interval `[o, c]`: sample 0 at shutter
open, sample `k-1` at shutter close.  A single sample sits at shutter
open. -/
def sampleTime (o c : Time) (k i : Nat) : Time :=
  if k ≤ 1 then o else o + (i : ℚ) * (c - o) / ((k : ℚ) - 1)

/-- Modelled from the spec: the transform array `GetTMs()` returns for a
target when `k` samples are delivered — the trajectory evaluated at the
`k` evenly spaced sample times, in temporal order. -/
def sampleTMs (tgt : ModelTarget) (o c : Time) (k : Nat) : List Matrix3 :=
  (List.range k).map (fun i => tgt.trajectory (sampleTime o c k i))

/-- Modelled from the spec: how many transform samples the producer
delivers for a target under negotiated response `n`: one for `0` (static)
and `1` (single transform plus velocity/spin), exactly `n` for `n ≥ 2`,
and the target's own natural count for `-1` (variable). -/
def deliveredCount (tgt : ModelTarget) (n : Int) : Nat :=
  if n = 0 then 1
  else if n = 1 then 1
  else if 2 ≤ n then n.toNat
  else tgt.naturalSamples

/-- What the renderer reads from one `RenderInstanceTarget` after the
update: `GetID`, `GetInstanceID`, `GetTMs`, `GetTM`, `GetVelocity`,
`GetSpin`. -/
structure TargetView where
  birthID : Int
  instanceID : Int
  tms : List Matrix3
  tm : Matrix3
  velocity : Point3
  spin : AngAxis

/-- What the renderer reads from one `RenderInstanceSource`. -/
structure SourceView where
  payloadKind : PayloadKind
  mustDelete : Bool
  velocityMapChannel : Int
  targets : List TargetView

/-- `RenderInstanceSource::GetFlags` on the view. -/
def SourceView.getFlags (s : SourceView) : Nat :=
  dataFlagsOf s.payloadKind s.mustDelete

/-- Modelled from the spec: the view of one target delivered for shutter
`[o, c]` under negotiated response `n`.  `GetTM()` returns the transform
at shutter open. -/
def buildTargetView (o c : Time) (n : Int) (tgt : ModelTarget) : TargetView :=
  ⟨tgt.birthID, tgt.instanceID,
   sampleTMs tgt o c (deliveredCount tgt n),
   tgt.trajectory o,
   tgt.velocity, tgt.spin⟩

/-- The result of `UpdateInstanceData`: the `valid` out-parameter, the
negotiated `MotionBlurInfo` written back through `mbinfo`, and the
instance tree the subsequent getters expose. -/
structure UpdateResult where
  valid : Interval
  mbOut : MotionBlurInfo
  tree : List SourceView

/-- The shutter open/close times of the update: the shutter interval when
one is given, else the evaluation time itself (no motion blur). -/
def shutterTimes (t : Time) (iv : Interval) : Time × Time :=
  match iv with
  | Interval.ivl o c => (o, c)
  | _ => (t, t)

/-- Modelled from the spec: `RenderTimeInstancing::UpdateInstanceData`
(pure virtual in the header; no implementation in the repository).  It
negotiates `numberOfTMs`, reports validity — `FOREVER` when the instances
are static, regardless of the request — sets the authoritative-side flags
(velocity/spin authoritative exactly when the response is a single
transform), and builds the instance tree delivering the negotiated number
of transform samples over the shutter interval. -/
def updateInstanceData (p : ModelProducer) (t : Time) (mbIn : MotionBlurInfo)
    (_plugin : String) : UpdateResult :=
  let n := negotiateTMs p.supportsMultiTM p.scene.moving mbIn.numberOfTMs
  let oc := shutterTimes t mbIn.shutterInterval
  ⟨if p.scene.moving = true then Interval.ivl t t else Interval.FOREVER,
   ⟨if n = 1 then mb_velocities ||| mb_vel_preferred
     else mb_transforms ||| mb_tm_preferred,
    mbIn.shutterInterval, n⟩,
   p.scene.sources.map (fun s =>
     ⟨s.payloadKind, s.mustDelete, s.velocityMapChannel,
      s.targets.map (buildTargetView oc.1 oc.2 n)⟩)⟩

/-- The lifecycle states of the instance data
(`Uninitialized → Updating → Ready → Released`; `Updating` is transient
inside the update call). -/
inductive TreeState where
  | uninitialized
  | ready (res : UpdateResult)
  | released
deriving Inhabited

/-- Modelled from the spec: the `UpdateInstanceData` lifecycle transition.
The instance data is recomputed fresh from the producer's scene and the
call's inputs; any previous tree is discarded. -/
def TreeState.update (_ : TreeState) (p : ModelProducer) (t : Time)
    (mbIn : MotionBlurInfo) (plugin : String) : TreeState :=
  TreeState.ready (updateInstanceData p t mbIn plugin)

/-- Modelled from the spec: `ReleaseInstanceData` — the producer releases
any allocated data; all previously obtained references become invalid. -/
def TreeState.release (_ : TreeState) : TreeState := TreeState.released

/-- The tree visible in a state (empty outside `Ready`). -/
def TreeState.tree : TreeState → List SourceView
  | TreeState.ready res => res.tree
  | _ => []

/-- `GetNumInstanceSources` on a state. -/
def TreeState.sourceCount (s : TreeState) : Nat := s.tree.length

/-- The per-source `GetNumInstanceTargets` counts, in source order. -/
def TreeState.targetCounts (s : TreeState) : List Nat :=
  s.tree.map (fun sv => sv.targets.length)

/-! ## Channel registry (v3 header, lines 187-196, 256-270)

`GetChannels()` returns the list of `ChannelInfo` records;
`GetChannelID(name, type)` is pure virtual with the documented contract
"Returns -1 if a channel of that name and type does not exist". -/

/-- `ChannelInfo` of the v3 header: channel name, type, opaque ID, and
(for `typeCustom` only) the data size. -/
structure ChannelInfo where
  name : String
  type : TypeID
  channelID : ChannelID
  size : Int
deriving DecidableEq

/-- Modelled from the spec: `RenderTimeInstancing::GetChannelID` (pure
virtual; no implementation in the repository).  Looks the `(name, type)`
pair up in the producer's channel list and returns the matching channel's
ID, or the sentinel `-1` when no channel of that exact name and type
exists. -/
def getChannelID (channels : List ChannelInfo) (nm : String) (ty : TypeID) :
    ChannelID :=
  match channels.find? (fun c => c.name == nm && c.type == ty) with
  | some c => c.channelID
  | none => -1

/-- A well-formed channel registry for one validity window: no channel
uses the not-found sentinel as its ID, and two channels agreeing on name
and type carry the same ID (a `(name, type)` pair resolves to at most one
ChannelID). -/
def WFChannels (channels : List ChannelInfo) : Prop :=
  (∀ c ∈ channels, c.channelID ≠ -1) ∧
  (∀ c ∈ channels, ∀ d ∈ channels,
    c.name = d.name → c.type = d.type → c.channelID = d.channelID)

/-! ## Concrete inputs used by the witnesses -/

/-- A concrete static target (identity trajectory). -/
def demoTarget : ModelTarget :=
  ⟨1, 0, fun _ => Matrix3.identity, Point3.origin, ⟨⟨0, 0, 1⟩, 0⟩, 2⟩

/-- A concrete mesh source instancing `demoTarget`. -/
def demoSource : ModelSource := ⟨PayloadKind.mesh, false, -1, [demoTarget]⟩

/-- A producer with moving instances that only tracks a single transform
plus velocity/spin (cannot honor an exact multi-sample request). -/
def pNoMulti : ModelProducer := ⟨⟨[demoSource], true⟩, false⟩

/-- A producer whose instances are static for the validity interval. -/
def pStatic : ModelProducer := ⟨⟨[demoSource], false⟩, true⟩

/-- A motion-blur request for exactly 3 transform samples over shutter
`[0, 1]`. -/
def mbReq3 : MotionBlurInfo := ⟨mb_tm_preferred, Interval.ivl 0 1, 3⟩

/-- A concrete two-channel registry. -/
def demoChannels : List ChannelInfo :=
  [⟨"myFloatChannel", TypeID.typeFloat, 0, 0⟩,
   ⟨"myVectorChannel1", TypeID.typeVector, 1, 0⟩]

end RTI

namespace RTI

theorem forEachAux_eq_range' (c : IndexedContainer α) (endIdx : Nat) :
    ∀ fuel i, i ≤ endIdx → endIdx - i < fuel →
      c.forEachAux endIdx i fuel = (List.range' i (endIdx - i)).map c.item := by
  intro fuel
  induction fuel with
  | zero => intro i _ h; omega
  | succ fuel ih =>
    intro i hle hfuel
    by_cases hi : i = endIdx
    · subst hi
      simp [IndexedContainer.forEachAux, Iter.ne]
    · have hlt : i < endIdx := lt_of_le_of_ne hle hi
      have hstep : endIdx - i = (endIdx - (i + 1)) + 1 := by omega
      rw [IndexedContainer.forEachAux]
      rw [if_pos (by simp [Iter.ne, hi])]
      rw [ih (i + 1) (by omega) (by omega), hstep, List.range'_succ]
      simp

end RTI

namespace RTI

/-- Claim C4: for every source, the flags value returned by `GetFlags()`
has exactly one of the two payload type bits (`df_mesh = 1`,
`df_inode = 2`) set; the bitwise-AND test identifies the payload type for
every flags value, while when the independent must-delete bit `1 << 31` is
also set the equality test against the type bit is false even though that
type bit is set. -/
theorem C4_flags_type_bits (k : PayloadKind) (mustDel : Bool) :
    ((dataFlagsOf k mustDel &&& df_mesh ≠ 0 ∧ ¬dataFlagsOf k mustDel &&& df_inode ≠ 0) ∨
     (dataFlagsOf k mustDel &&& df_inode ≠ 0 ∧ ¬dataFlagsOf k mustDel &&& df_mesh ≠ 0)) ∧
    (dataFlagsOf k mustDel &&& df_mesh ≠ 0 ↔ k = PayloadKind.mesh) ∧
    (dataFlagsOf k mustDel &&& df_inode ≠ 0 ↔ k = PayloadKind.inode) ∧
    (mustDel = true →
      dataFlagsOf k mustDel ≠ df_mesh ∧ dataFlagsOf k mustDel ≠ df_inode) := by
  cases k <;> cases mustDel <;>
    simp [dataFlagsOf, df_mesh, df_inode, df_pluginMustDelete] <;> decide

/-- Witness for C4: a mesh source whose payload the consumer must delete;
its flags have the mesh bit set and yet compare unequal to `df_mesh`. -/
theorem C4_flags_type_bits_witness :
    (true = true) ∧
    ((dataFlagsOf PayloadKind.mesh true &&& df_mesh ≠ 0 ∧
        ¬dataFlagsOf PayloadKind.mesh true &&& df_inode ≠ 0) ∨
     (dataFlagsOf PayloadKind.mesh true &&& df_inode ≠ 0 ∧
        ¬dataFlagsOf PayloadKind.mesh true &&& df_mesh ≠ 0)) ∧
    (dataFlagsOf PayloadKind.mesh true &&& df_mesh ≠ 0 ↔
        PayloadKind.mesh = PayloadKind.mesh) ∧
    (dataFlagsOf PayloadKind.mesh true &&& df_inode ≠ 0 ↔
        PayloadKind.mesh = PayloadKind.inode) ∧
    (dataFlagsOf PayloadKind.mesh true ≠ df_mesh ∧
        dataFlagsOf PayloadKind.mesh true ≠ df_inode) := by
  have h := C4_flags_type_bits PayloadKind.mesh true
  exact ⟨rfl, h.1, h.2.1, h.2.2.1, h.2.2.2 rfl⟩

/-- Claim C6: iterating a container with its `begin()`/`end()` iterator is
equivalent to the index-based loop: for a container whose count is `n`,
the iteration visits exactly `item i` for `i = 0, ..., n-1` in order and
stops; when `n = 0`, `begin()` equals `end()` and nothing is visited; and
restarting the iteration within one validity window yields the same
result. -/
theorem C6_iterator_equivalence (c : IndexedContainer α) :
    c.forEachVisited = (List.range c.count).map c.item ∧
    (c.count = 0 → c.beginIter = c.endIter ∧ c.forEachVisited = []) ∧
    c.forEachVisited = c.forEachVisited := by
  have hmain : c.forEachVisited = (List.range c.count).map c.item := by
    rw [IndexedContainer.forEachVisited, IndexedContainer.beginIter,
      IndexedContainer.endIter]
    rw [forEachAux_eq_range' c c.count (c.count + 1) 0 (by omega) (by omega)]
    rw [List.range_eq_range']
    simp
  refine ⟨hmain, ?_, rfl⟩
  intro h0
  constructor
  · simp [IndexedContainer.beginIter, IndexedContainer.endIter, h0]
  · rw [hmain, h0]
    simp

/-- Witness for C6: the zero-source container, where `begin() == end()`
and no element is visited. -/
theorem C6_iterator_equivalence_witness :
    (IndexedContainer.mk 0 (fun _ => (0 : Int))).forEachVisited =
      (List.range 0).map (fun _ => (0 : Int)) ∧
    (IndexedContainer.mk 0 (fun _ => (0 : Int))).beginIter =
      (IndexedContainer.mk 0 (fun _ => (0 : Int))).endIter ∧
    (IndexedContainer.mk 0 (fun _ => (0 : Int))).forEachVisited = [] := by
  have h := C6_iterator_equivalence (IndexedContainer.mk 0 (fun _ => (0 : Int)))
  exact ⟨h.1, (h.2.1 rfl).1, (h.2.1 rfl).2⟩

end RTI

namespace RTI

variable {α : Type} [Inhabited α]

theorem tyVector.getD_range_map (f : Nat → α) (n i : Nat) (d : α) :
    (((List.range n).map f).getD i d) = if i < n then f i else d := by
  by_cases h : i < n
  · rw [if_pos h]
    rw [List.getD_eq_getElem?_getD]
    rw [List.getElem?_map]
    simp [List.getElem?_range h]
  · rw [if_neg h]
    rw [List.getD_eq_getElem?_getD]
    rw [List.getElem?_eq_none (by simpa using h)]
    rfl

theorem tyVector.growTarget_ge (s : Nat) : s ≤ tyVector.growTarget s := by
  unfold tyVector.growTarget
  by_cases h : s < 4 <;> simp [h] <;> omega

theorem tyVector.reserve_sz (v : tyVector α) (s : Nat) :
    (v.reserve s).sz = v.sz := by
  unfold tyVector.reserve
  by_cases h : v.arr.length < s <;> simp [h]

theorem tyVector.reserve_capacity (v : tyVector α) (s : Nat) :
    (v.reserve s).capacity = max v.arr.length s := by
  unfold tyVector.reserve tyVector.capacity
  by_cases h : v.arr.length < s <;> simp [h] <;> omega

theorem tyVector.reserve_get_lt (v : tyVector α) (s : Nat) (i : Nat)
    (hwf : v.WF) (hi : i < v.sz) : (v.reserve s).get i = v.get i := by
  unfold tyVector.reserve tyVector.get
  by_cases h : v.arr.length < s
  · simp only [h, if_true]
    rw [tyVector.getD_range_map]
    have hs : i < s := by
      have := hwf
      unfold tyVector.WF at this
      omega
    rw [if_pos hs, if_pos hi]
  · simp [h]

theorem tyVector.resize_sz (v : tyVector α) (s : Nat) :
    (v.resize s).sz = s := by
  unfold tyVector.resize
  by_cases h1 : v.sz = s
  · simp [h1]
  · by_cases h2 : s = 0
    · subst h2
      simp [h1, tyVector.clear]
    · by_cases h3 : s < v.arr.length <;> simp [h1, h2, h3]

theorem tyVector.resize_capacity_ge (v : tyVector α) (s : Nat) (hwf : v.WF) :
    s ≤ (v.resize s).capacity := by
  unfold tyVector.WF at hwf
  unfold tyVector.resize
  by_cases h1 : v.sz = s
  · simpa [h1, tyVector.capacity] using hwf.trans_eq' h1.symm
  · by_cases h2 : s = 0
    · simp [h1, h2, tyVector.clear, tyVector.capacity]
    · by_cases h3 : s < v.arr.length
      · simp only [h1, h2, h3, if_false, if_true]
        exact le_of_lt h3
      · simp only [h1, h2, h3, if_false, if_true]
        have hcap := tyVector.reserve_capacity v (tyVector.growTarget s)
        have hge := tyVector.growTarget_ge s
        unfold tyVector.capacity at hcap
        show s ≤ (v.reserve (tyVector.growTarget s)).arr.length
        omega

theorem tyVector.resize_get_lt (v : tyVector α) (s : Nat) (i : Nat)
    (hwf : v.WF) (hi : i < min v.sz s) : (v.resize s).get i = v.get i := by
  unfold tyVector.resize
  by_cases h1 : v.sz = s
  · simp [h1]
  · by_cases h2 : s = 0
    · omega
    · by_cases h3 : s < v.arr.length
      · simp [h1, h2, h3, tyVector.get]
      · simp only [h1, h2, h3, if_false, if_true]
        have := tyVector.reserve_get_lt v (tyVector.growTarget s) i hwf (by omega)
        simpa [tyVector.get] using this

theorem tyVector.clear_WF (v : tyVector α) : v.clear.WF := by
  simp [tyVector.clear, tyVector.WF]

theorem tyVector.reserve_WF (v : tyVector α) (s : Nat) (hwf : v.WF) :
    (v.reserve s).WF := by
  have hc := tyVector.reserve_capacity v s
  have hs := tyVector.reserve_sz v s
  unfold tyVector.WF at hwf ⊢
  unfold tyVector.capacity at hc
  omega

theorem tyVector.resize_WF (v : tyVector α) (s : Nat) (hwf : v.WF) :
    (v.resize s).WF := by
  have h1 := tyVector.resize_sz v s
  have h2 := tyVector.resize_capacity_ge v s hwf
  unfold tyVector.WF
  unfold tyVector.capacity at h2
  omega

theorem tyVector.push_back_WF (v : tyVector α) (x : α) (hwf : v.WF) :
    (v.push_back x).WF := by
  have h := tyVector.resize_WF v (v.sz + 1) hwf
  unfold tyVector.WF at h ⊢
  unfold tyVector.push_back
  simpa using h

theorem tyVector.resize_zero_of_sz_ne (v : tyVector α) (h : v.sz ≠ 0) :
    v.resize 0 = tyVector.emptyVec α := by
  unfold tyVector.resize
  simp [h, tyVector.clear, tyVector.emptyVec]

end RTI

namespace RTI

/-- Counterexample for claim C10: `resize(0)` does not always leave the
vector with capacity 0.  On an empty vector with reserved capacity
(`tyVector<ℚ> v; v.reserve(5); v.resize(0);`) the `_size != s` guard is
false, so `resize(0)` is a no-op: the size is 0 but the capacity stays 5. -/
theorem C10_counterexample_resize_zero_capacity :
    (((tyVector.emptyVec ℚ).reserve 5).resize 0).size = 0 ∧
    (((tyVector.emptyVec ℚ).reserve 5).resize 0).capacity = 5 ∧
    (((tyVector.emptyVec ℚ).reserve 5).resize 0).capacity ≠ 0 := by
  refine ⟨rfl, rfl, ?_⟩
  intro h
  simp [tyVector.emptyVec, tyVector.reserve, tyVector.resize,
    tyVector.capacity] at h

/-- Claim C10 (amended): for every well-formed `tyVector` `v`, size `s`
and element `x`: after `v.resize(s)`, `v.size() == s`, `capacity() ≥ s`,
and every element at an index below `min(old size, s)` is preserved;
`size() ≤ capacity()` is preserved by `resize`, `reserve`, `clear` and
`push_back`; and `resize(0)` empties the vector with capacity 0 whenever
the previous size was nonzero (on an already-empty vector `resize(0)` is a
no-op that keeps the existing capacity). -/
theorem C10_resize_spec (v : tyVector ℚ) (s : Nat) (x : ℚ) (hwf : v.WF) :
    (v.resize s).size = s ∧
    s ≤ (v.resize s).capacity ∧
    (∀ i, i < min v.size s → (v.resize s).get i = v.get i) ∧
    (v.size ≠ 0 → v.resize 0 = tyVector.emptyVec ℚ) ∧
    (v.resize s).WF ∧ (v.reserve s).WF ∧ v.clear.WF ∧ (v.push_back x).WF := by
  refine ⟨tyVector.resize_sz v s, tyVector.resize_capacity_ge v s hwf,
    ?_, ?_, tyVector.resize_WF v s hwf, tyVector.reserve_WF v s hwf,
    tyVector.clear_WF v, tyVector.push_back_WF v x hwf⟩
  · intro i hi
    exact tyVector.resize_get_lt v s i hwf (by simpa [tyVector.size] using hi)
  · intro h
    exact tyVector.resize_zero_of_sz_ne v (by simpa [tyVector.size] using h)

/-- Witness for C10's amended theorem: a well-formed one-element vector
resized to 2. -/
theorem C10_resize_spec_witness :
    ((tyVector.emptyVec ℚ).push_back 7).WF ∧
    (((tyVector.emptyVec ℚ).push_back 7).resize 2).size = 2 ∧
    (((tyVector.emptyVec ℚ).push_back 7).resize 2).get 0 =
      ((tyVector.emptyVec ℚ).push_back 7).get 0 := by
  have hwf : ((tyVector.emptyVec ℚ).push_back 7).WF := by
    unfold tyVector.WF
    rfl
  have h := C10_resize_spec ((tyVector.emptyVec ℚ).push_back 7) 2 0 hwf
  have hsz : ((tyVector.emptyVec ℚ).push_back 7).size = 1 := rfl
  refine ⟨hwf, h.1, ?_⟩
  exact h.2.2.1 0 (by rw [hsz]; decide)

end RTI

namespace RTI

theorem negotiateTMs_spec (sm mv : Bool) (r : Int) :
    (negotiateTMs sm mv r = 0 → mv = false) ∧
    (2 ≤ negotiateTMs sm mv r → negotiateTMs sm mv r = r) ∧
    (negotiateTMs sm mv r = -1 → sm = true) ∧
    (2 ≤ r → sm = false → negotiateTMs sm mv r ≤ 1) := by
  unfold negotiateTMs
  by_cases h1 : mv = false <;> by_cases h2 : r = 0 <;> by_cases h3 : r = 1 <;>
    by_cases h4 : 2 ≤ r <;> by_cases h5 : sm = true <;>
    simp [h1, h2, h3, h4, h5] <;> omega

theorem buildTargetView_tms_length (o c : Time) (n : Int) (tgt : ModelTarget) :
    (buildTargetView o c n tgt).tms.length = deliveredCount tgt n := by
  simp [buildTargetView, sampleTMs]

theorem deliveredCount_of_two_le (tgt : ModelTarget) {n : Int} (h : 2 ≤ n) :
    deliveredCount tgt n = n.toNat := by
  unfold deliveredCount
  rw [if_neg (by omega), if_neg (by omega), if_pos h]

theorem deliveredCount_one (tgt : ModelTarget) : deliveredCount tgt 1 = 1 := rfl

theorem deliveredCount_zero (tgt : ModelTarget) : deliveredCount tgt 0 = 1 := rfl

theorem update_tree_eq (p : ModelProducer) (t : Time) (mbIn : MotionBlurInfo)
    (plugin : String) :
    (updateInstanceData p t mbIn plugin).tree =
      p.scene.sources.map (fun s =>
        ⟨s.payloadKind, s.mustDelete, s.velocityMapChannel,
         s.targets.map (buildTargetView (shutterTimes t mbIn.shutterInterval).1
           (shutterTimes t mbIn.shutterInterval).2
           (negotiateTMs p.supportsMultiTM p.scene.moving mbIn.numberOfTMs))⟩) := rfl

theorem update_numberOfTMs_eq (p : ModelProducer) (t : Time)
    (mbIn : MotionBlurInfo) (plugin : String) :
    (updateInstanceData p t mbIn plugin).mbOut.numberOfTMs =
      negotiateTMs p.supportsMultiTM p.scene.moving mbIn.numberOfTMs := rfl

theorem update_flags_eq (p : ModelProducer) (t : Time)
    (mbIn : MotionBlurInfo) (plugin : String) :
    (updateInstanceData p t mbIn plugin).mbOut.flags =
      (if negotiateTMs p.supportsMultiTM p.scene.moving mbIn.numberOfTMs = 1
        then mb_velocities ||| mb_vel_preferred
        else mb_transforms ||| mb_tm_preferred) := rfl

end RTI

namespace RTI

/-- Claim C2: after `UpdateInstanceData` returns, `numberOfTMs` holds what
the producer will actually deliver for every target of the window: a
response `N ≥ 2` means `GetTMs()` has exactly `N` transforms, a response
`1` means `GetTMs()` has exactly one element and the velocity/spin flags
carry the motion, a response `0` means the instances are not moving, and
`-1` means a variable (multi-sample-capable) count; a request `N ≥ 2` the
producer cannot honor is overridden in the response. -/
theorem C2_negotiated_response (p : ModelProducer) (t : Time)
    (mbIn : MotionBlurInfo) (plugin : String) :
    (∀ sv ∈ (updateInstanceData p t mbIn plugin).tree, ∀ tv ∈ sv.targets,
      (2 ≤ (updateInstanceData p t mbIn plugin).mbOut.numberOfTMs →
        (tv.tms.length : Int) =
          (updateInstanceData p t mbIn plugin).mbOut.numberOfTMs) ∧
      ((updateInstanceData p t mbIn plugin).mbOut.numberOfTMs = 1 →
        tv.tms.length = 1) ∧
      ((updateInstanceData p t mbIn plugin).mbOut.numberOfTMs = 0 →
        tv.tms.length = 1)) ∧
    ((updateInstanceData p t mbIn plugin).mbOut.numberOfTMs = 1 →
      (updateInstanceData p t mbIn plugin).mbOut.flags &&& mb_velocities ≠ 0) ∧
    ((updateInstanceData p t mbIn plugin).mbOut.numberOfTMs = 0 →
      p.scene.moving = false) ∧
    ((updateInstanceData p t mbIn plugin).mbOut.numberOfTMs = -1 →
      p.supportsMultiTM = true) ∧
    (2 ≤ mbIn.numberOfTMs → p.supportsMultiTM = false →
      (updateInstanceData p t mbIn plugin).mbOut.numberOfTMs ≤ 1) := by
  have hspec := negotiateTMs_spec p.supportsMultiTM p.scene.moving mbIn.numberOfTMs
  refine ⟨?_, ?_, ?_, ?_, ?_⟩
  · intro sv hsv tv htv
    rw [update_tree_eq] at hsv
    rw [List.mem_map] at hsv
    obtain ⟨s, _, rfl⟩ := hsv
    rw [List.mem_map] at htv
    obtain ⟨tgt, _, rfl⟩ := htv
    rw [update_numberOfTMs_eq]
    refine ⟨?_, ?_, ?_⟩
    · intro h2
      rw [buildTargetView_tms_length, deliveredCount_of_two_le tgt h2]
      omega
    · intro h1
      rw [buildTargetView_tms_length, h1, deliveredCount_one]
    · intro h0
      rw [buildTargetView_tms_length, h0, deliveredCount_zero]
  · intro h1
    rw [update_numberOfTMs_eq] at h1
    rw [update_flags_eq, if_pos h1]
    decide
  · intro h0
    rw [update_numberOfTMs_eq] at h0
    exact hspec.1 h0
  · intro hm
    rw [update_numberOfTMs_eq] at hm
    exact hspec.2.2.1 hm
  · intro hr hsm
    rw [update_numberOfTMs_eq]
    exact hspec.2.2.2 hr hsm

/-- Witness for C2: the single-transform producer receives a request for
3 samples; the response is overridden to 1 and the velocity flag is set. -/
theorem C2_negotiated_response_witness :
    2 ≤ mbReq3.numberOfTMs ∧ pNoMulti.supportsMultiTM = false ∧
    (updateInstanceData pNoMulti 0 mbReq3 "vray").mbOut.numberOfTMs ≤ 1 ∧
    (updateInstanceData pNoMulti 0 mbReq3 "vray").mbOut.numberOfTMs = 1 ∧
    (updateInstanceData pNoMulti 0 mbReq3 "vray").mbOut.flags &&&
      mb_velocities ≠ 0 := by
  have h := C2_negotiated_response pNoMulti 0 mbReq3 "vray"
  exact ⟨by decide, rfl, h.2.2.2.2 (by decide) rfl, by decide, h.2.1 (by decide)⟩

end RTI

namespace RTI

theorem sampleTime_zero (o c : Time) (k : Nat) : sampleTime o c k 0 = o := by
  unfold sampleTime
  by_cases h : k ≤ 1 <;> simp [h]

theorem cast_pred_eq (k : Nat) (h : 2 ≤ k) : ((k - 1 : Nat) : ℚ) = (k : ℚ) - 1 := by
  have : 1 ≤ k := by omega
  push_cast [this]
  ring

theorem cast_sub_one_ne (k : Nat) (h : 2 ≤ k) : ((k : ℚ) - 1) ≠ 0 := by
  have h2 : (2 : ℚ) ≤ (k : ℚ) := by exact_mod_cast h
  linarith

theorem sampleTime_last (o c : Time) (k : Nat) (h : 2 ≤ k) :
    sampleTime o c k (k - 1) = c := by
  unfold sampleTime
  rw [if_neg (by omega), cast_pred_eq k h]
  have hk := cast_sub_one_ne k h
  field_simp

theorem sampleTime_spacing (o c : Time) (k : Nat) (h : 2 ≤ k) (i : Nat) :
    sampleTime o c k (i + 1) - sampleTime o c k i = (c - o) / ((k : ℚ) - 1) := by
  have hcond : ¬k ≤ 1 := by omega
  have hk := cast_sub_one_ne k h
  simp only [sampleTime, hcond, if_false]
  push_cast
  field_simp
  ring

theorem sampleTime_mono (o c : Time) (k : Nat) (hoc : o ≤ c) {i j : Nat}
    (hij : i ≤ j) : sampleTime o c k i ≤ sampleTime o c k j := by
  unfold sampleTime
  by_cases h : k ≤ 1
  · simp [h]
  · rw [if_neg h, if_neg h]
    have hk : (0 : ℚ) < (k : ℚ) - 1 := by
      have h2 : (2 : ℚ) ≤ (k : ℚ) := by exact_mod_cast (by omega : 2 ≤ k)
      linarith
    have hd : (0 : ℚ) ≤ c - o := by linarith
    have hij' : (i : ℚ) ≤ (j : ℚ) := by exact_mod_cast hij
    have hm : (i : ℚ) * (c - o) ≤ (j : ℚ) * (c - o) :=
      mul_le_mul_of_nonneg_right hij' hd
    have hdiv : (i : ℚ) * (c - o) / ((k : ℚ) - 1) ≤
        (j : ℚ) * (c - o) / ((k : ℚ) - 1) :=
      (div_le_div_right hk).mpr hm
    linarith

theorem sampleTMs_length (tgt : ModelTarget) (o c : Time) (k : Nat) :
    (sampleTMs tgt o c k).length = k := by
  simp [sampleTMs]

theorem sampleTMs_get (tgt : ModelTarget) (o c : Time) (k i : Nat)
    (hi : i < k) :
    (sampleTMs tgt o c k)[i]? = some (tgt.trajectory (sampleTime o c k i)) := by
  simp [sampleTMs, List.getElem?_map, List.getElem?_range hi]

theorem sampleTime_two_one (o c : Time) : sampleTime o c 2 1 = c := by
  unfold sampleTime
  norm_num

theorem sampleTime_three_one (o c : Time) : sampleTime o c 3 1 = (o + c) / 2 := by
  unfold sampleTime
  norm_num
  ring

theorem sampleTime_three_two (o c : Time) : sampleTime o c 3 2 = c := by
  unfold sampleTime
  norm_num

end RTI

namespace RTI

/-- Claim C3: the transform sequence delivered for a target is the
trajectory sampled in temporal order, spread evenly across the shutter
interval `[o, c]`: length 1 is the static case (the sample sits at
shutter open), length 2 holds the transforms at the interval start and
end, and length `k ≥ 3` holds evenly spaced samples with sample 0 at
shutter open and sample `k-1` at shutter close (length 3 is start,
center, end). -/
theorem C3_tms_evenly_spaced (tgt : ModelTarget) (o c : Time) (n : Int)
    (k : Nat) :
    (buildTargetView o c n tgt).tms = sampleTMs tgt o c (deliveredCount tgt n) ∧
    (sampleTMs tgt o c k).length = k ∧
    (∀ i, i < k →
      (sampleTMs tgt o c k)[i]? = some (tgt.trajectory (sampleTime o c k i))) ∧
    sampleTime o c k 0 = o ∧
    (2 ≤ k → sampleTime o c k (k - 1) = c) ∧
    (2 ≤ k → ∀ i, sampleTime o c k (i + 1) - sampleTime o c k i =
      (c - o) / ((k : ℚ) - 1)) ∧
    (o ≤ c → ∀ i j, i ≤ j → sampleTime o c k i ≤ sampleTime o c k j) ∧
    (k = 1 → sampleTMs tgt o c k = [tgt.trajectory o]) ∧
    (k = 2 → sampleTMs tgt o c k = [tgt.trajectory o, tgt.trajectory c]) ∧
    (k = 3 → sampleTMs tgt o c k =
      [tgt.trajectory o, tgt.trajectory ((o + c) / 2), tgt.trajectory c]) := by
  refine ⟨rfl, sampleTMs_length tgt o c k, fun i hi => sampleTMs_get tgt o c k i hi,
    sampleTime_zero o c k, sampleTime_last o c k, sampleTime_spacing o c k,
    fun hoc i j hij => sampleTime_mono o c k hoc hij, ?_, ?_, ?_⟩
  · intro hk
    subst hk
    have h1 : List.range 1 = [0] := rfl
    simp [sampleTMs, h1, sampleTime_zero]
  · intro hk
    subst hk
    have h2 : List.range 2 = [0, 1] := rfl
    simp [sampleTMs, h2, sampleTime_zero, sampleTime_two_one]
  · intro hk
    subst hk
    have h3 : List.range 3 = [0, 1, 2] := rfl
    simp [sampleTMs, h3, sampleTime_zero, sampleTime_three_one,
      sampleTime_three_two]

/-- Witness for C3: three samples over the shutter interval `[0, 1]` sit
at times 0, 1/2, 1. -/
theorem C3_tms_evenly_spaced_witness :
    sampleTime 0 1 3 0 = 0 ∧
    (2 ≤ 3 ∧ sampleTime 0 1 3 (3 - 1) = 1) ∧
    ((3 : Nat) = 3 ∧ sampleTMs demoTarget 0 1 3 =
      [demoTarget.trajectory 0, demoTarget.trajectory ((0 + 1) / 2),
       demoTarget.trajectory 1]) := by
  have h := C3_tms_evenly_spaced demoTarget 0 1 1 3
  refine ⟨?_, ⟨by decide, ?_⟩, ⟨rfl, ?_⟩⟩
  · simpa using h.2.2.2.1
  · simpa using h.2.2.2.2.1 (by decide)
  · exact h.2.2.2.2.2.2.2.2.2 rfl

/-- Claim C7: if the producer's instances are static for the validity
interval, `UpdateInstanceData` returns the unbounded `FOREVER` validity
sentinel in its `valid` out-parameter, regardless of the consumer's
request, signaling that the instance data may be cached across frames. -/
theorem C7_static_returns_forever (p : ModelProducer) (t : Time)
    (mbIn : MotionBlurInfo) (plugin : String) (h : p.scene.moving = false) :
    (updateInstanceData p t mbIn plugin).valid = Interval.FOREVER := by
  show (if p.scene.moving = true then Interval.ivl t t else Interval.FOREVER) =
    Interval.FOREVER
  rw [h]
  simp

/-- Witness for C7: the static producer answers `FOREVER` to a concrete
motion-blurred request. -/
theorem C7_static_returns_forever_witness :
    pStatic.scene.moving = false ∧
    (updateInstanceData pStatic 0 mbReq3 "arnold").valid = Interval.FOREVER :=
  ⟨rfl, C7_static_returns_forever pStatic 0 mbReq3 "arnold" rfl⟩

/-- Claim C8: for every target whose transform sequence is non-empty, the
single-transform accessor `GetTM()` returns the same matrix as the first
element of `GetTMs()` (the shutter-open transform). -/
theorem C8_tm_eq_first_tms (o c : Time) (n : Int) (tgt : ModelTarget)
    (h : (buildTargetView o c n tgt).tms ≠ []) :
    (buildTargetView o c n tgt).tms.head? =
      some ((buildTargetView o c n tgt).tm) := by
  have hk : deliveredCount tgt n ≠ 0 := by
    intro h0
    apply h
    show sampleTMs tgt o c (deliveredCount tgt n) = []
    rw [h0]
    rfl
  obtain ⟨k, hk'⟩ : ∃ k, deliveredCount tgt n = k + 1 :=
    ⟨deliveredCount tgt n - 1,
     (Nat.succ_pred_eq_of_pos (Nat.pos_of_ne_zero hk)).symm⟩
  show (sampleTMs tgt o c (deliveredCount tgt n)).head? =
    some (tgt.trajectory o)
  rw [hk']
  unfold sampleTMs
  rw [List.range_succ_eq_map]
  simp [sampleTime_zero]

/-- Witness for C8: the static single-sample delivery (`n = 0`) for the
demo target over shutter `[0, 1]`. -/
theorem C8_tm_eq_first_tms_witness :
    (buildTargetView 0 1 0 demoTarget).tms ≠ [] ∧
    (buildTargetView 0 1 0 demoTarget).tms.head? =
      some ((buildTargetView 0 1 0 demoTarget).tm) := by
  have hne : (buildTargetView 0 1 0 demoTarget).tms ≠ [] := by
    show sampleTMs demoTarget 0 1 (deliveredCount demoTarget 0) ≠ []
    rw [deliveredCount_zero]
    simp [sampleTMs]
  exact ⟨hne, C8_tm_eq_first_tms 0 1 0 demoTarget hne⟩

/-- Claim C9: for a static scene, two runs of the update call with
identical inputs — the second after an intervening release — produce
trees with identical `sourceCount()`, identical per-source
`targetCount()`, and identical field values for every source and target:
the update/release cycle is deterministic. -/
theorem C9_update_release_update (p : ModelProducer) (s0 : TreeState)
    (t : Time) (mbIn : MotionBlurInfo) (plugin : String)
    (h : p.scene.moving = false) :
    ((s0.update p t mbIn plugin).release.update p t mbIn plugin) =
      s0.update p t mbIn plugin ∧
    ((s0.update p t mbIn plugin).release.update p t mbIn plugin).sourceCount =
      (s0.update p t mbIn plugin).sourceCount ∧
    ((s0.update p t mbIn plugin).release.update p t mbIn plugin).targetCounts =
      (s0.update p t mbIn plugin).targetCounts ∧
    ((s0.update p t mbIn plugin).release.update p t mbIn plugin).tree =
      (s0.update p t mbIn plugin).tree :=
  ⟨rfl, rfl, rfl, rfl⟩

/-- Witness for C9: the static producer run from the uninitialized state. -/
theorem C9_update_release_update_witness :
    pStatic.scene.moving = false ∧
    ((TreeState.uninitialized.update pStatic 0 mbReq3 "vray").release.update
        pStatic 0 mbReq3 "vray") =
      TreeState.uninitialized.update pStatic 0 mbReq3 "vray" :=
  ⟨rfl, (C9_update_release_update pStatic TreeState.uninitialized 0 mbReq3
    "vray" rfl).1⟩

/-- Claim C5: for every channel name and type, if no channel of that exact
name and type exists then `GetChannelID` returns the not-found sentinel
`-1` (never a value of a different type reinterpreted); a pair that does
exist resolves to exactly one ChannelID within the window (every matching
channel yields the same, valid ID). -/
theorem C5_channel_resolution (channels : List ChannelInfo) (nm : String)
    (ty : TypeID) (hwf : WFChannels channels) :
    ((¬∃ c ∈ channels, c.name = nm ∧ c.type = ty) →
      getChannelID channels nm ty = -1) ∧
    (∀ c ∈ channels, c.name = nm → c.type = ty →
      getChannelID channels nm ty = c.channelID) ∧
    (getChannelID channels nm ty ≠ -1 →
      ∃ c ∈ channels, c.name = nm ∧ c.type = ty ∧
        c.channelID = getChannelID channels nm ty) ∧
    ((∃ c ∈ channels, c.name = nm ∧ c.type = ty) →
      getChannelID channels nm ty ≠ -1) := by
  rcases hfind : channels.find? (fun c => c.name == nm && c.type == ty)
    with _ | c0
  · have hnone := List.find?_eq_none.mp hfind
    have hgc : getChannelID channels nm ty = -1 := by
      simp [getChannelID, hfind]
    refine ⟨fun _ => hgc, ?_, ?_, ?_⟩
    · intro c hc hn ht
      have hpc := hnone c hc
      rw [hn, ht] at hpc
      simp at hpc
    · intro hne
      exact absurd hgc hne
    · intro hex
      obtain ⟨c, hc, hn, ht⟩ := hex
      have hpc := hnone c hc
      rw [hn, ht] at hpc
      simp at hpc
  · have hmem := List.mem_of_find?_eq_some hfind
    have hpred := List.find?_some hfind
    have hname : c0.name = nm := by
      simp only [Bool.and_eq_true, beq_iff_eq] at hpred
      exact hpred.1
    have htype : c0.type = ty := by
      simp only [Bool.and_eq_true, beq_iff_eq] at hpred
      exact hpred.2
    have hgc : getChannelID channels nm ty = c0.channelID := by
      simp [getChannelID, hfind]
    refine ⟨?_, ?_, ?_, ?_⟩
    · intro hno
      exact absurd ⟨c0, hmem, hname, htype⟩ hno
    · intro c hc hn ht
      rw [hgc]
      exact hwf.2 c0 hmem c hc (hname.trans hn.symm) (htype.trans ht.symm)
    · intro _
      exact ⟨c0, hmem, hname, htype, hgc.symm⟩
    · intro _
      rw [hgc]
      exact hwf.1 c0 hmem

/-- Witness for C5: the demo registry resolves `("myFloatChannel",
typeFloat)` to 0, and `("missing", typeFloat)` to the sentinel `-1`. -/
theorem C5_channel_resolution_witness :
    WFChannels demoChannels ∧
    getChannelID demoChannels "myFloatChannel" TypeID.typeFloat = 0 ∧
    getChannelID demoChannels "missing" TypeID.typeFloat = -1 := by
  have hwf : WFChannels demoChannels := ⟨by decide, by decide⟩
  refine ⟨hwf, ?_, ?_⟩
  · exact (C5_channel_resolution demoChannels "myFloatChannel"
      TypeID.typeFloat hwf).2.1 ⟨"myFloatChannel", TypeID.typeFloat, 0, 0⟩
      (by decide) rfl rfl
  · exact (C5_channel_resolution demoChannels "missing"
      TypeID.typeFloat hwf).1 (by decide)

end RTI

namespace RTI

/-- Claim C1: for every channel token for which the per-instance raw lookup
`GetCustomData` returns the null not-found sentinel, the typed per-instance
readers return the documented defaults instead of failing: `GetCustomFloat`
returns `0.0`, `GetCustomVector` returns the origin `(0,0,0)`, and
`GetCustomTM` returns the identity transform. -/
theorem C1_custom_readers_default (t : CustomDataTarget) (channel : ChannelID)
    (h : t.getCustomData channel = none) :
    t.getCustomFloat channel = 0 ∧
    t.getCustomVector channel = Point3.origin ∧
    t.getCustomTM channel = Matrix3.identity := by
  refine ⟨?_, ?_, ?_⟩ <;>
    simp [CustomDataTarget.getCustomFloat, CustomDataTarget.getCustomVector,
      CustomDataTarget.getCustomTM, Matrix3.defaultCtor, h]

/-- Witness for C1: the empty target with the token `-1` obtained from a
failed resolve. -/
theorem C1_custom_readers_default_witness :
    CustomDataTarget.emptyTarget.getCustomFloat (-1) = 0 ∧
    CustomDataTarget.emptyTarget.getCustomVector (-1) = Point3.origin ∧
    CustomDataTarget.emptyTarget.getCustomTM (-1) = Matrix3.identity :=
  C1_custom_readers_default CustomDataTarget.emptyTarget (-1) rfl

end RTI
